import Mathlib

/-!
Shallow embedding of `src/python/twitter/common/python/translator.py` from the
pants repository.

The module resolves a package `Link` into a `Distribution` via a chain of
translator strategies.  Side effects (network fetches, temporary directories,
installer construction and cleanup, tracer logs, strategy invocations) are
modelled by threading an explicit `World` state through each call.  External
collaborators (the fetch mechanism, `Installer.distribution`, the `Distiller`,
the platform compatibility predicates and metadata reading) are modelled as
environment records whose outcomes parametrise the theorems, following the
spec's §6 interface contracts; the control flow itself is translated directly
from the Python source.
-/

set_option maxHeartbeats 1000000

/-- The kind tag of a link: `SourceLink` vs `EggLink` in `http.py`. -/
inductive LinkKind
  | source
  | binary
deriving DecidableEq, Repr

/-- A package link: an immutable descriptor with a name and a kind tag. -/
structure Link where
  name : String
  kind : LinkKind
deriving DecidableEq, Repr

/-- A resolved, installed package artifact (pkg_resources `Distribution`). -/
structure Distribution where
  project_name : String
  version : String
  location : String
deriving DecidableEq, Repr

/-- Python exceptions relevant to `translator.py`: `urllib` `URLError`
(caught by `EggTranslator`), `Installer.InstallFailure` (caught by
`SourceTranslator`), `ValueError` (raised by `ChainedTranslator.__init__`),
and any other propagating exception. -/
inductive PyErr
  | urlError (msg : String)
  | installFailure
  | valueError (msg : String)
  | other (msg : String)
deriving DecidableEq, Repr

/-- The observable side-effect state threaded through every call:
which directories currently exist, which links have been fetched, which
`Installer(path, strict)` constructions happened, which installers were
cleaned up, the tracer log, and which chain strategies were invoked. -/
structure World where
  dirs : List String
  fetches : List String
  installers : List (String × Bool)
  cleanups : List String
  logs : List String
  invoked : List Nat
deriving DecidableEq, Repr

/-- Record in the world that the chain invoked the strategy with this id. -/
def World.logInvoke (w : World) (i : Nat) : World :=
  { w with invoked := w.invoked ++ [i] }

/-- The platform/interpreter compatibility collaborator (`platforms.py`):
`Platform.current()`, `Platform.python()`, `Platform.compatible`,
`Platform.version_compatible`, `Platform.distribution_compatible`. -/
structure PlatformOracle where
  current : String
  pythonVersion : String
  compatible : String → String → Bool
  version_compatible : String → String → Bool
  distribution_compatible : Link → String → String → Bool

/-- Collaborator behaviour for a `SourceTranslator` run: the outcome of
`link.fetch(conn_timeout)`, of `installer.distribution()` (as a function of
the unpack path and the strict flag), of `Distiller(dist).distill(into=cache)`,
and the metadata read performed by `dist_from_egg`. -/
structure SourceEnv where
  oracle : PlatformOracle
  fetchSpec : Link → Option Nat → Except PyErr String
  installerDistribution : String → Bool → Except PyErr Distribution
  distill : Distribution → String → Except PyErr String
  distFromEggSpec : String → Distribution

/-- Collaborator behaviour for an `EggTranslator` run: the outcome of
`link.fetch(location, conn_timeout)` and the metadata read of
`dist_from_egg`. -/
structure EggEnv where
  oracle : PlatformOracle
  fetchSpec : Link → String → Option Nat → Except PyErr String
  distFromEggSpec : String → Distribution

/-- Modelled from the spec: `safe_mkdtemp` (from `twitter.common.dirutil`,
not under `src/`) supplies "a process-lifetime temporary directory created on
demand" used as the install cache when the caller provides none (§3). -/
def safe_mkdtemp : String := "/tmp/safe_mkdtemp"

/-- Modelled from the spec: `safe_rmtree` (from `twitter.common.dirutil`,
not under `src/`) deletes the directory tree at the given path; in the world
model it removes that directory entry. -/
def safe_rmtree (p : String) (w : World) : World :=
  { w with dirs := w.dirs.filter (fun d => d ≠ p) }

/-- The intermediate build directory owned by `Installer(p, strict)`. -/
def installerDir (p : String) : String := p ++ "/.installer-build"

/-- Modelled from the spec: constructing `Installer(p, strict)` (collaborator
`installer.py`, not under `src/`) acquires an installer-internal build
directory and records the construction with its strict flag. -/
def installerConstruct (p : String) (strict : Bool) (w : World) : World :=
  { w with dirs := w.dirs ++ [installerDir p],
           installers := w.installers ++ [(p, strict)] }

/-- Modelled from the spec: `installer.cleanup()` releases the
installer-internal build directory. -/
def installerCleanup (p : String) (w : World) : World :=
  { w with dirs := w.dirs.filter (fun d => d ≠ installerDir p),
           cleanups := w.cleanups ++ [p] }

/-- Semantics of `link.fetch(conn_timeout=...)` on a source link: on success the source is
downloaded into a freshly created unpack directory whose path is returned; on
failure the exception propagates and no directory is handed back. -/
def linkFetch (env : SourceEnv) (link : Link) (conn_timeout : Option Nat)
    (w : World) : Except PyErr String × World :=
  match env.fetchSpec link conn_timeout with
  | Except.error e => (Except.error e, { w with fetches := w.fetches ++ [link.name] })
  | Except.ok p =>
      (Except.ok p, { w with fetches := w.fetches ++ [link.name],
                             dirs := w.dirs ++ [p] })

/-- Semantics of `link.fetch(location=..., conn_timeout=...)` on an egg link: the egg is
fetched directly into the install cache; no temporary directory is created. -/
def eggFetch (env : EggEnv) (link : Link) (location : String)
    (conn_timeout : Option Nat) (w : World) : Except PyErr String × World :=
  (env.fetchSpec link location conn_timeout,
   { w with fetches := w.fetches ++ [link.name] })

/-- State of a `SourceTranslator` after `__init__`: install cache, platform, python
version, connection timeout. -/
structure SourceTranslator where
  install_cache : String
  platform : String
  python : String
  conn_timeout : Option Nat
deriving Repr

/-- Constructor `SourceTranslator(install_cache=None, platform=..., python=...,
conn_timeout=None)`: `self._install_cache = install_cache or safe_mkdtemp()`. -/
def SourceTranslator.init (install_cache : Option String) (platform : String)
    (python : String) (conn_timeout : Option Nat) : SourceTranslator :=
  { install_cache := install_cache.getD safe_mkdtemp
    platform := platform
    python := python
    conn_timeout := conn_timeout }

/-- The `finally` clause of `SourceTranslator.translate` for the paths on which
both the unpack directory and the installer exist: `installer.cleanup()` then
`safe_rmtree(unpack_path)`. -/
def sourceFinally (unpack_path : String) (w : World) : World :=
  safe_rmtree unpack_path (installerCleanup unpack_path w)

/-- Translation of `SourceTranslator.translate(link)`, clause by clause:
kind check, `Platform.compatible`, `Platform.version_compatible`, fetch
(errors propagate; `finally` has nothing to release there), `Installer`
construction with `strict=(link.name != 'distribute')`, an inner `try` whose
body is only `dist = installer.distribution()` and which catches only
`Installer.InstallFailure` (returning `None`); the subsequent
`return dist_from_egg(Distiller(dist).distill(into=cache))` sits after the
`try`/`except` block, so any error it raises — even an `InstallFailure` —
propagates; everything runs under a `finally` that cleans up the installer
and removes the unpack directory. -/
def SourceTranslator.translate (st : SourceTranslator) (env : SourceEnv)
    (link : Link) (w : World) : Except PyErr (Option Distribution) × World :=
  if link.kind ≠ LinkKind.source then (Except.ok none, w)
  else if !(env.oracle.compatible env.oracle.current st.platform) then
    (Except.ok none, w)
  else if !(env.oracle.version_compatible env.oracle.pythonVersion st.python) then
    (Except.ok none, w)
  else
    match linkFetch env link st.conn_timeout w with
    | (Except.error e, w1) => (Except.error e, w1)
    | (Except.ok unpack_path, w1) =>
        let strict := link.name != "distribute"
        let w2 := installerConstruct unpack_path strict w1
        let result : Except PyErr (Option Distribution) :=
          match env.installerDistribution unpack_path strict with
          | Except.error PyErr.installFailure => Except.ok none
          | Except.error e => Except.error e
          | Except.ok dist =>
              match env.distill dist st.install_cache with
              | Except.error e => Except.error e
              | Except.ok egg => Except.ok (some (env.distFromEggSpec egg))
        (result, sourceFinally unpack_path w2)

/-- State of an `EggTranslator` after `__init__`: install cache, platform, python version,
connection timeout. -/
structure EggTranslator where
  install_cache : String
  platform : String
  python : String
  conn_timeout : Option Nat
deriving Repr

/-- Constructor `EggTranslator(install_cache=None, ...)`: `self._install_cache =
install_cache or safe_mkdtemp()`. -/
def EggTranslator.init (install_cache : Option String) (platform : String)
    (python : String) (conn_timeout : Option Nat) : EggTranslator :=
  { install_cache := install_cache.getD safe_mkdtemp
    platform := platform
    python := python
    conn_timeout := conn_timeout }

/-- Translation of `EggTranslator.translate(link)`: kind check,
`Platform.distribution_compatible`, then a fetch into the install cache whose
`URLError` is caught, logged and turned into `None`; other exceptions
propagate; on success `dist_from_egg(egg)` is returned. -/
def EggTranslator.translate (et : EggTranslator) (env : EggEnv) (link : Link)
    (w : World) : Except PyErr (Option Distribution) × World :=
  if link.kind ≠ LinkKind.binary then (Except.ok none, w)
  else if !(env.oracle.distribution_compatible link et.python et.platform) then
    (Except.ok none, w)
  else
    match eggFetch env link et.install_cache et.conn_timeout w with
    | (Except.error (PyErr.urlError m), w1) =>
        (Except.ok none,
         { w1 with logs := w1.logs ++ ["Failed to fetch " ++ link.name ++ ": " ++ m] })
    | (Except.error e, w1) => (Except.error e, w1)
    | (Except.ok egg, w1) => (Except.ok (some (env.distFromEggSpec egg)), w1)

/-- A translator strategy as held by a chain: an identifier (used only to log
invocations) and its `translate` behaviour. -/
structure Strategy where
  id : Nat
  run : Link → World → Except PyErr (Option Distribution) × World

/-- An argument to `ChainedTranslator(*translators)`: a falsy placeholder
(filtered by `filter(None, ...)`), a conforming `TranslatorBase` instance, or
a truthy object that is not a `TranslatorBase`. -/
inductive Entry
  | absent
  | translator (s : Strategy)
  | nonTranslator (desc : String)

/-- Python truthiness of an entry: only the falsy placeholder is filtered. -/
def Entry.isTruthy : Entry → Bool
  | Entry.absent => false
  | _ => true

/-- State of a `ChainedTranslator` after construction: the retained strategies. -/
structure ChainedTranslator where
  translators : List Strategy

/-- The `isinstance(tx, TranslatorBase)` loop of `ChainedTranslator.__init__`:
raises `ValueError` at the first retained entry that is not a translator. -/
def checkAll : List Entry → Except PyErr (List Strategy)
  | [] => Except.ok []
  | Entry.translator s :: rest =>
      match checkAll rest with
      | Except.error e => Except.error e
      | Except.ok txs => Except.ok (s :: txs)
  | Entry.absent :: _ =>
      Except.error (PyErr.valueError
        "Expected a sequence of translators, got NoneType instead.")
  | Entry.nonTranslator d :: _ =>
      Except.error (PyErr.valueError
        ("Expected a sequence of translators, got " ++ d ++ " instead."))

/-- Constructor `ChainedTranslator.__init__(*translators)`: filter falsy entries, then
fail fast on any retained non-translator. -/
def ChainedTranslator.init (entries : List Entry) :
    Except PyErr ChainedTranslator :=
  match checkAll (entries.filter Entry.isTruthy) with
  | Except.error e => Except.error e
  | Except.ok txs => Except.ok ⟨txs⟩

/-- The loop of `ChainedTranslator.translate(link)`: invoke each strategy in
order, return the first truthy distribution, propagate exceptions, fall off
the end with `None`. -/
def translateLoop : List Strategy → Link → World →
    Except PyErr (Option Distribution) × World
  | [], _, w => (Except.ok none, w)
  | tx :: rest, link, w =>
      match tx.run link (w.logInvoke tx.id) with
      | (Except.ok none, w1) => translateLoop rest link w1
      | (r, w1) => (r, w1)

/-- Dispatch of `ChainedTranslator.translate(link)` to the loop. -/
def ChainedTranslator.translate (c : ChainedTranslator) (link : Link)
    (w : World) : Except PyErr (Option Distribution) × World :=
  translateLoop c.translators link w

/-- Factory `Translator.default(...)`: a chain of an `EggTranslator` followed by a
`SourceTranslator`, both constructed from the same install cache, platform,
python version and connection timeout. -/
def Translator.default (install_cache : Option String) (platform : String)
    (python : String) (conn_timeout : Option Nat) (eenv : EggEnv)
    (senv : SourceEnv) : Except PyErr ChainedTranslator :=
  ChainedTranslator.init
    [Entry.translator
       ⟨0, (EggTranslator.init install_cache platform python conn_timeout).translate eenv⟩,
     Entry.translator
       ⟨1, (SourceTranslator.init install_cache platform python conn_timeout).translate senv⟩]

/-! ## Helper lemmas and concrete fixtures -/

/-- Relation: running `txs` in order from `w` (with the chain's invocation
logging) yields `Except.ok none` at every step, ending in world `w'`. -/
inductive AllNone (link : Link) : List Strategy → World → World → Prop
  | nil (w : World) : AllNone link [] w w
  | cons {tx : Strategy} {rest : List Strategy} {w w1 w2 : World}
      (h : tx.run link (w.logInvoke tx.id) = (Except.ok none, w1))
      (hrest : AllNone link rest w1 w2) : AllNone link (tx :: rest) w w2

lemma translateLoop_allNone {link : Link} {txs : List Strategy} {w w1 : World}
    (h : AllNone link txs w w1) (rest : List Strategy) :
    translateLoop (txs ++ rest) link w = translateLoop rest link w1 := by
  induction h with
  | nil w => simp
  | cons hstep hrest ih => simpa [translateLoop, hstep] using ih

lemma translateLoop_cons_some {tx : Strategy} {rest : List Strategy}
    {link : Link} {w w1 : World} {d : Distribution}
    (h : tx.run link (w.logInvoke tx.id) = (Except.ok (some d), w1)) :
    translateLoop (tx :: rest) link w = (Except.ok (some d), w1) := by
  simp [translateLoop, h]

lemma source_none_of_shortcircuit (st : SourceTranslator) (env : SourceEnv)
    (link : Link) (w : World)
    (h : link.kind ≠ LinkKind.source ∨
         env.oracle.compatible env.oracle.current st.platform = false ∨
         env.oracle.version_compatible env.oracle.pythonVersion st.python = false) :
    st.translate env link w = (Except.ok none, w) := by
  unfold SourceTranslator.translate
  split_ifs with h1 h2 h3
  · rfl
  · rfl
  · rfl
  · exfalso
    rcases h with h | h | h
    · exact h1 h
    · simp [h] at h2
    · simp [h] at h3

lemma egg_none_of_shortcircuit (et : EggTranslator) (env : EggEnv)
    (link : Link) (w : World)
    (h : link.kind ≠ LinkKind.binary ∨
         env.oracle.distribution_compatible link et.python et.platform = false) :
    et.translate env link w = (Except.ok none, w) := by
  unfold EggTranslator.translate
  split_ifs with h1 h2
  · rfl
  · rfl
  · exfalso
    rcases h with h | h
    · exact h1 h
    · simp [h] at h2

lemma checkAll_error_of_nonTranslator {d : String} {l : List Entry}
    (h : Entry.nonTranslator d ∈ l) :
    ∃ msg, checkAll l = Except.error (PyErr.valueError msg) := by
  induction l with
  | nil => cases h
  | cons e rest ih =>
      cases e with
      | absent => exact ⟨_, rfl⟩
      | nonTranslator d2 => exact ⟨_, rfl⟩
      | translator s =>
          rcases List.mem_cons.mp h with h' | h'
          · cases h'
          · obtain ⟨msg, hmsg⟩ := ih h'
            exact ⟨msg, by simp [checkAll, hmsg]⟩

/-- Concrete platform oracle used by the witnesses. -/
def testOracle : PlatformOracle :=
  { current := "linux"
    pythonVersion := "2.6"
    compatible := fun a b => a == b
    version_compatible := fun a b => a == b
    distribution_compatible := fun _ _ _ => true }

/-- Concrete empty world used by the witnesses. -/
def wEmpty : World := ⟨[], [], [], [], [], []⟩

/-- Concrete source-kind link used by the witnesses. -/
def linkS : Link := ⟨"pkg", LinkKind.source⟩

/-- Concrete binary-kind link used by the witnesses. -/
def eggLinkT : Link := ⟨"pkg", LinkKind.binary⟩

/-- Concrete source translator used by the witnesses. -/
def stTest : SourceTranslator := SourceTranslator.init (some "/cache") "linux" "2.6" none

/-- Concrete egg translator used by the witnesses. -/
def etTest : EggTranslator := EggTranslator.init (some "/cache") "linux" "2.6" none

/-- Concrete source environment whose build collaborator reports failure. -/
def envBuildFail : SourceEnv :=
  { oracle := testOracle
    fetchSpec := fun _ _ => Except.ok "/tmp/unpack0"
    installerDistribution := fun _ _ => Except.error PyErr.installFailure
    distill := fun _ _ => Except.ok "/cache/pkg.egg"
    distFromEggSpec := fun p => ⟨"pkg", "1.0", p⟩ }

/-- Concrete source environment whose fetch collaborator raises. -/
def envFetchErr : SourceEnv :=
  { envBuildFail with fetchSpec := fun _ _ => Except.error (PyErr.other "connection reset") }

/-- Concrete egg environment whose fetch succeeds into the cache. -/
def eenvOk : EggEnv :=
  { oracle := testOracle
    fetchSpec := fun _ loc _ => Except.ok (loc ++ "/pkg.egg")
    distFromEggSpec := fun p => ⟨"pkg", "1.0", p⟩ }

/-- Concrete egg environment whose fetch raises a URLError. -/
def eenvUrlErr : EggEnv :=
  { eenvOk with fetchSpec := fun _ _ _ => Except.error (PyErr.urlError "404 not found") }

/-- Mock strategy that always reports "not applicable". -/
def mockNone : Strategy := ⟨1, fun _ w => (Except.ok none, w)⟩

/-- Distribution produced by the second mock strategy. -/
def mockDist : Distribution := ⟨"mock", "0.1", "/cache/mock.egg"⟩

/-- Mock strategy that always succeeds with `mockDist`. -/
def mockSome : Strategy := ⟨2, fun _ w => (Except.ok (some mockDist), w)⟩

/-- Mock third strategy, which must never be invoked. -/
def mockThird : Strategy := ⟨3, fun _ w => (Except.ok (some ⟨"third", "0.1", "/x"⟩), w)⟩

/-! ## Claims about the chain (C1, C5, C10) -/

/-- C1: for every chain of translators and every link,
`ChainedTranslator.translate` invokes each strategy's translate in
construction order and returns the first non-empty Distribution immediately
without invoking any later strategy (the outcome is that of the succeeding
strategy's run, independent of the strategies after it); if every strategy
returns empty, the chain returns empty rather than raising an error. -/
theorem chained_translate_first_nonempty (link : Link) :
    (∀ (pre : List Strategy) (tx : Strategy) (post : List Strategy)
       (w w1 w2 : World) (d : Distribution),
       AllNone link pre w w1 →
       tx.run link (w1.logInvoke tx.id) = (Except.ok (some d), w2) →
       ChainedTranslator.translate ⟨pre ++ tx :: post⟩ link w =
         (Except.ok (some d), w2))
    ∧ (∀ (txs : List Strategy) (w w1 : World),
       AllNone link txs w w1 →
       ChainedTranslator.translate ⟨txs⟩ link w = (Except.ok none, w1)) := by
  constructor
  · intro pre tx post w w1 w2 d hpre htx
    unfold ChainedTranslator.translate
    rw [translateLoop_allNone hpre]
    exact translateLoop_cons_some htx
  · intro txs w w1 h
    unfold ChainedTranslator.translate
    have h2 := translateLoop_allNone h []
    simpa [translateLoop] using h2

/-- Witness for C1: a chain of three mock strategies where the second
succeeds; the result is the second strategy's distribution, and the
invocation log shows strategies 1 and 2 invoked but never 3. -/
theorem chained_translate_first_nonempty_witness :
    ChainedTranslator.translate ⟨[mockNone, mockSome, mockThird]⟩ linkS wEmpty =
      (Except.ok (some mockDist), ⟨[], [], [], [], [], [1, 2]⟩) :=
  (chained_translate_first_nonempty linkS).1 [mockNone] mockSome [mockThird]
    wEmpty (wEmpty.logInvoke 1) ((wEmpty.logInvoke 1).logInvoke 2) mockDist
    (AllNone.cons rfl (AllNone.nil (wEmpty.logInvoke 1))) rfl

/-- C5: `ChainedTranslator` construction filters out empty/absent (falsy)
entries, and raises a `ValueError` at construction time if any remaining
entry does not conform to the translator contract; in particular
`ChainedTranslator(None, strategyA, None)` constructs the same chain as
`ChainedTranslator(strategyA)`. -/
theorem chained_init_filters_and_validates (s : Strategy) :
    ChainedTranslator.init [Entry.absent, Entry.translator s, Entry.absent] =
      ChainedTranslator.init [Entry.translator s]
    ∧ ∀ (entries : List Entry) (d : String), Entry.nonTranslator d ∈ entries →
        ∃ msg, ChainedTranslator.init entries =
          Except.error (PyErr.valueError msg) := by
  refine ⟨rfl, ?_⟩
  intro entries d h
  have hmem : Entry.nonTranslator d ∈ entries.filter Entry.isTruthy :=
    List.mem_filter.mpr ⟨h, rfl⟩
  obtain ⟨msg, hmsg⟩ := checkAll_error_of_nonTranslator hmem
  exact ⟨msg, by simp [ChainedTranslator.init, hmsg]⟩

/-- Witness for C5: filtering of two absent entries around a mock strategy,
and a construction-time `ValueError` for a chain containing a non-translator
entry. -/
theorem chained_init_filters_and_validates_witness :
    ChainedTranslator.init [Entry.absent, Entry.translator mockNone, Entry.absent] =
      ChainedTranslator.init [Entry.translator mockNone]
    ∧ ∃ msg, ChainedTranslator.init
        [Entry.translator mockNone, Entry.nonTranslator "int"] =
        Except.error (PyErr.valueError msg) :=
  ⟨(chained_init_filters_and_validates mockNone).1,
   (chained_init_filters_and_validates mockNone).2
     [Entry.translator mockNone, Entry.nonTranslator "int"] "int"
     (List.mem_cons_of_mem _ (List.mem_cons_self _ _))⟩

/-- C10: a `ChainedTranslator` constructed with no arguments, or with only
empty/absent entries, is constructed successfully, and for every link its
translate returns empty in an unchanged world (so no strategy is invoked and
nothing is raised). -/
theorem chained_empty_chain (entries : List Entry)
    (h : ∀ e ∈ entries, e = Entry.absent) (link : Link) (w : World) :
    ∃ c, ChainedTranslator.init entries = Except.ok c ∧
      c.translate link w = (Except.ok none, w) := by
  have hfilter : entries.filter Entry.isTruthy = [] := by
    rw [List.filter_eq_nil_iff]
    intro e he
    rw [h e he]
    simp [Entry.isTruthy]
  refine ⟨⟨[]⟩, ?_, rfl⟩
  simp [ChainedTranslator.init, hfilter, checkAll]

/-- Witness for C10: the chain built from two absent entries resolves any
link to empty without touching the world. -/
theorem chained_empty_chain_witness :
    ∃ c, ChainedTranslator.init [Entry.absent, Entry.absent] = Except.ok c ∧
      c.translate linkS wEmpty = (Except.ok none, wEmpty) :=
  chained_empty_chain [Entry.absent, Entry.absent]
    (by intro e he; rcases List.mem_cons.mp he with h | h
        · exact h
        · rcases List.mem_cons.mp h with h' | h'
          · exact h'
          · cases h')
    linkS wEmpty

/-! ## Claims about SourceTranslator (C2, C3, C6, C7) -/

/-- C6: for every link, `SourceTranslator.translate` returns empty with the
world unchanged — so no fetch or other network access is performed — when the
link's kind is not SOURCE, or the platform compatibility check fails, or the
interpreter-version compatibility check fails. -/
theorem source_translate_short_circuit (st : SourceTranslator) (env : SourceEnv)
    (link : Link) (w : World)
    (h : link.kind ≠ LinkKind.source ∨
         env.oracle.compatible env.oracle.current st.platform = false ∨
         env.oracle.version_compatible env.oracle.pythonVersion st.python = false) :
    st.translate env link w = (Except.ok none, w) :=
  source_none_of_shortcircuit st env link w h

/-- Witness for C6: the source translator on a binary-kind link returns
empty and leaves the world untouched. -/
theorem source_translate_short_circuit_witness :
    stTest.translate envBuildFail eggLinkT wEmpty = (Except.ok none, wEmpty) :=
  source_translate_short_circuit stTest envBuildFail eggLinkT wEmpty
    (Or.inl (by decide))

/-- C2: for every source-kind link whose fetch succeeds, if the build
collaborator reports `Installer.InstallFailure` then
`SourceTranslator.translate` returns empty (not an error), and neither the
unpack directory created for that call nor the installer's build directory
exists when the call returns. -/
theorem source_translate_build_failure (st : SourceTranslator) (env : SourceEnv)
    (link : Link) (w : World) (p : String)
    (hkind : link.kind = LinkKind.source)
    (hplat : env.oracle.compatible env.oracle.current st.platform = true)
    (hver : env.oracle.version_compatible env.oracle.pythonVersion st.python = true)
    (hfetch : env.fetchSpec link st.conn_timeout = Except.ok p)
    (hbuild : env.installerDistribution p (link.name != "distribute") =
        Except.error PyErr.installFailure) :
    (st.translate env link w).1 = Except.ok none ∧
      p ∉ ((st.translate env link w).2).dirs ∧
      installerDir p ∉ ((st.translate env link w).2).dirs := by
  have hT : st.translate env link w =
      (Except.ok none,
       sourceFinally p (installerConstruct p (link.name != "distribute")
         { w with fetches := w.fetches ++ [link.name], dirs := w.dirs ++ [p] })) := by
    simp [SourceTranslator.translate, linkFetch, hkind, hplat, hver, hfetch, hbuild]
  rw [hT]
  refine ⟨rfl, ?_, ?_⟩
  · simp [sourceFinally, installerConstruct, installerCleanup, safe_rmtree,
      List.mem_filter]
  · simp [sourceFinally, installerConstruct, installerCleanup, safe_rmtree,
      List.mem_filter]

/-- Witness for C2: a concrete build failure returns empty and both the
unpack directory and the installer build directory are gone. -/
theorem source_translate_build_failure_witness :
    (stTest.translate envBuildFail linkS wEmpty).1 = Except.ok none ∧
      "/tmp/unpack0" ∉ ((stTest.translate envBuildFail linkS wEmpty).2).dirs ∧
      installerDir "/tmp/unpack0" ∉
        ((stTest.translate envBuildFail linkS wEmpty).2).dirs :=
  source_translate_build_failure stTest envBuildFail linkS wEmpty "/tmp/unpack0"
    rfl rfl rfl rfl rfl

/-- C3: for every source-kind link passing the compatibility checks, if the
fetch collaborator raises, `SourceTranslator.translate` does not catch the
error: it propagates unchanged to the caller, and the final world differs
from the initial one only by the fetch-attempt log — in particular its
directories equal the initial ones, so no unpack directory or installer
resource created by this call survives. -/
theorem source_translate_fetch_error (st : SourceTranslator) (env : SourceEnv)
    (link : Link) (w : World) (e : PyErr)
    (hkind : link.kind = LinkKind.source)
    (hplat : env.oracle.compatible env.oracle.current st.platform = true)
    (hver : env.oracle.version_compatible env.oracle.pythonVersion st.python = true)
    (hfetch : env.fetchSpec link st.conn_timeout = Except.error e) :
    st.translate env link w =
      (Except.error e, { w with fetches := w.fetches ++ [link.name] }) := by
  simp [SourceTranslator.translate, linkFetch, hkind, hplat, hver, hfetch]

/-- Witness for C3: a concrete fetch error propagates and the directory list
is unchanged. -/
theorem source_translate_fetch_error_witness :
    stTest.translate envFetchErr linkS wEmpty =
      (Except.error (PyErr.other "connection reset"),
       { wEmpty with fetches := wEmpty.fetches ++ [linkS.name] }) :=
  source_translate_fetch_error stTest envFetchErr linkS wEmpty
    (PyErr.other "connection reset") rfl rfl rfl rfl

/-- C7: whenever `SourceTranslator.translate` reaches the build step (fetch
succeeded on a compatible source link), the `Installer` is constructed with
strict mode on if and only if the link's name differs from the distinguished
bootstrap package name `distribute`. -/
theorem source_translate_strict_flag (st : SourceTranslator) (env : SourceEnv)
    (link : Link) (w : World) (p : String)
    (hkind : link.kind = LinkKind.source)
    (hplat : env.oracle.compatible env.oracle.current st.platform = true)
    (hver : env.oracle.version_compatible env.oracle.pythonVersion st.python = true)
    (hfetch : env.fetchSpec link st.conn_timeout = Except.ok p) :
    ((st.translate env link w).2).installers =
        w.installers ++ [(p, link.name != "distribute")]
    ∧ ((link.name != "distribute") = true ↔ link.name ≠ "distribute") := by
  constructor
  · simp [SourceTranslator.translate, linkFetch, hkind, hplat, hver, hfetch,
      sourceFinally, installerConstruct, installerCleanup, safe_rmtree]
  · simp

/-- Witness for C7: for the non-bootstrap package `pkg` the installer is
constructed with `strict = true`. -/
theorem source_translate_strict_flag_witness :
    ((stTest.translate envBuildFail linkS wEmpty).2).installers =
        wEmpty.installers ++ [("/tmp/unpack0", linkS.name != "distribute")]
    ∧ ((linkS.name != "distribute") = true ↔ linkS.name ≠ "distribute") :=
  source_translate_strict_flag stTest envBuildFail linkS wEmpty "/tmp/unpack0"
    rfl rfl rfl rfl

/-! ## Claims about EggTranslator, the invariant and the default chain
(C4, C9, C8) -/

/-- C4: for every link, `EggTranslator.translate` returns empty with the
world unchanged — performing no fetch — when the link is not binary-kind or
the combined artifact/platform/interpreter compatibility check fails; and
when the fetch raises a `URLError`, the error is caught locally, a log line
is recorded, and the strategy returns empty rather than propagating. -/
theorem egg_translate_soft_failures (et : EggTranslator) (env : EggEnv)
    (link : Link) (w : World) :
    (link.kind ≠ LinkKind.binary ∨
       env.oracle.distribution_compatible link et.python et.platform = false →
       et.translate env link w = (Except.ok none, w))
    ∧ (∀ m : String, link.kind = LinkKind.binary →
       env.oracle.distribution_compatible link et.python et.platform = true →
       env.fetchSpec link et.install_cache et.conn_timeout =
         Except.error (PyErr.urlError m) →
       et.translate env link w =
         (Except.ok none,
          { w with fetches := w.fetches ++ [link.name],
                   logs := w.logs ++
                     ["Failed to fetch " ++ link.name ++ ": " ++ m] })) := by
  constructor
  · intro h
    exact egg_none_of_shortcircuit et env link w h
  · intro m hkind hcompat hfetch
    simp [EggTranslator.translate, eggFetch, hkind, hcompat, hfetch]

/-- Witness for C4: a source-kind link yields empty with no fetch recorded,
and a concrete `URLError` on fetch is swallowed, logged and turned into an
empty result. -/
theorem egg_translate_soft_failures_witness :
    etTest.translate eenvOk linkS wEmpty = (Except.ok none, wEmpty)
    ∧ etTest.translate eenvUrlErr eggLinkT wEmpty =
        (Except.ok none,
         { wEmpty with fetches := wEmpty.fetches ++ [eggLinkT.name],
                       logs := wEmpty.logs ++
                         ["Failed to fetch " ++ eggLinkT.name ++ ": " ++
                          "404 not found"] }) :=
  ⟨(egg_translate_soft_failures etTest eenvOk linkS wEmpty).1 (Or.inl (by decide)),
   (egg_translate_soft_failures etTest eenvUrlErr eggLinkT wEmpty).2
     "404 not found" rfl rfl rfl⟩

/-- C9: a non-empty Distribution is only ever returned when the link's kind
matches the producing translator's kind (SOURCE for `SourceTranslator`,
BINARY for `EggTranslator`) and that translator's compatibility check passed
on that link. -/
theorem translate_kind_compat_invariant (senv : SourceEnv) (eenv : EggEnv)
    (link : Link) (w : World) :
    (∀ (st : SourceTranslator) (d : Distribution),
       (st.translate senv link w).1 = Except.ok (some d) →
       link.kind = LinkKind.source ∧
       senv.oracle.compatible senv.oracle.current st.platform = true ∧
       senv.oracle.version_compatible senv.oracle.pythonVersion st.python = true)
    ∧ (∀ (et : EggTranslator) (d : Distribution),
       (et.translate eenv link w).1 = Except.ok (some d) →
       link.kind = LinkKind.binary ∧
       eenv.oracle.distribution_compatible link et.python et.platform = true) := by
  constructor
  · intro st d h
    by_cases h1 : link.kind = LinkKind.source
    · by_cases h2 : senv.oracle.compatible senv.oracle.current st.platform = true
      · by_cases h3 : senv.oracle.version_compatible senv.oracle.pythonVersion
            st.python = true
        · exact ⟨h1, h2, h3⟩
        · rw [source_none_of_shortcircuit st senv link w
            (Or.inr (Or.inr (by simpa using h3)))] at h
          simp at h
      · rw [source_none_of_shortcircuit st senv link w
          (Or.inr (Or.inl (by simpa using h2)))] at h
        simp at h
    · rw [source_none_of_shortcircuit st senv link w (Or.inl h1)] at h
      simp at h
  · intro et d h
    by_cases h1 : link.kind = LinkKind.binary
    · by_cases h2 : eenv.oracle.distribution_compatible link et.python
          et.platform = true
      · exact ⟨h1, h2⟩
      · rw [egg_none_of_shortcircuit et eenv link w (Or.inr (by simpa using h2))] at h
        simp at h
    · rw [egg_none_of_shortcircuit et eenv link w (Or.inl h1)] at h
      simp at h

/-- Witness for C9: a successful egg translation implies the link was
binary-kind and the combined compatibility check passed. -/
theorem translate_kind_compat_invariant_witness :
    eggLinkT.kind = LinkKind.binary ∧
    eenvOk.oracle.distribution_compatible eggLinkT etTest.python
      etTest.platform = true :=
  (translate_kind_compat_invariant envBuildFail eenvOk eggLinkT wEmpty).2 etTest
    ⟨"pkg", "1.0", "/cache/pkg.egg"⟩ rfl

/-- Concrete default chain used by the C8 witness: an egg strategy over
`eenvOk` followed by a source strategy over `envBuildFail`, sharing the
cache `/cache`, platform `linux`, python `2.6` and no timeout. -/
def defaultChainTestC : ChainedTranslator :=
  ⟨[⟨0, (EggTranslator.init (some "/cache") "linux" "2.6" none).translate eenvOk⟩,
    ⟨1, (SourceTranslator.init (some "/cache") "linux" "2.6" none).translate envBuildFail⟩]⟩

/-- World after the C8 witness run: only the egg strategy (id 0) was invoked
and only one fetch happened. -/
def wAfterEgg : World := ⟨[], ["pkg"], [], [], [], [0]⟩

/-- C8: `Translator.default` constructs a `ChainedTranslator` whose
strategies are ordered binary before source (`EggTranslator` first,
`SourceTranslator` second), with both strategies sharing the same install
cache directory, platform, interpreter version, and connection timeout;
consequently, whenever the first (binary) strategy resolves a link, its
result is the chain's result. -/
theorem translator_default_chain (install_cache : Option String)
    (platform python : String) (conn_timeout : Option Nat)
    (eenv : EggEnv) (senv : SourceEnv) :
    Translator.default install_cache platform python conn_timeout eenv senv =
      Except.ok
        ⟨[⟨0, (EggTranslator.init install_cache platform python conn_timeout).translate eenv⟩,
          ⟨1, (SourceTranslator.init install_cache platform python conn_timeout).translate senv⟩]⟩
    ∧ (EggTranslator.init install_cache platform python conn_timeout).install_cache =
        (SourceTranslator.init install_cache platform python conn_timeout).install_cache
    ∧ (EggTranslator.init install_cache platform python conn_timeout).platform =
        (SourceTranslator.init install_cache platform python conn_timeout).platform
    ∧ (EggTranslator.init install_cache platform python conn_timeout).python =
        (SourceTranslator.init install_cache platform python conn_timeout).python
    ∧ (EggTranslator.init install_cache platform python conn_timeout).conn_timeout =
        (SourceTranslator.init install_cache platform python conn_timeout).conn_timeout
    ∧ ∀ (link : Link) (w w2 : World) (d : Distribution),
        (EggTranslator.init install_cache platform python conn_timeout).translate
            eenv link (w.logInvoke 0) = (Except.ok (some d), w2) →
        ∀ c, Translator.default install_cache platform python conn_timeout eenv senv =
            Except.ok c →
          c.translate link w = (Except.ok (some d), w2) := by
  refine ⟨rfl, rfl, rfl, rfl, rfl, ?_⟩
  intro link w w2 d hegg c hc
  have h0 : Translator.default install_cache platform python conn_timeout eenv senv =
      Except.ok
        (⟨[⟨0, (EggTranslator.init install_cache platform python conn_timeout).translate eenv⟩,
           ⟨1, (SourceTranslator.init install_cache platform python conn_timeout).translate senv⟩]⟩ :
          ChainedTranslator) := rfl
  rw [h0] at hc
  have hchain := (Except.ok.inj hc).symm
  subst hchain
  exact translateLoop_cons_some hegg

/-- Witness for C8: in the concrete default chain, a binary link resolvable
by the egg strategy yields the egg strategy's distribution, with only
strategy 0 invoked. -/
theorem translator_default_chain_witness :
    defaultChainTestC.translate eggLinkT wEmpty =
      (Except.ok (some (⟨"pkg", "1.0", "/cache/pkg.egg"⟩ : Distribution)), wAfterEgg) :=
  (translator_default_chain (some "/cache") "linux" "2.6" none eenvOk envBuildFail).2.2.2.2.2
    eggLinkT wEmpty wAfterEgg ⟨"pkg", "1.0", "/cache/pkg.egg"⟩ rfl
    defaultChainTestC rfl
